import Mathlib

/-!
# Verification of the Querya agent core (src/agent.js)

This file gives a shallow embedding of the agent reasoning loop, the model
gateway (`callLLM`), the response normalizer (`parseAPIResponse`) and the
tool dispatcher (`executeTool` / `Promise.all`) of `src/agent.js`, and
proves or refutes the frozen specification claims about them.

JavaScript values are modelled by the inductive type `Json`; `Option Json`
models a possibly-`undefined` value (`none` = `undefined`).  Exceptions are
modelled by `Except String`, carrying the exception message.
-/

/-- A JSON/JavaScript value.  `null` is a value of its own; `undefined`
is modelled as `Option.none` at use sites.  Numbers are modelled as
integers (no claim depends on fractional values). -/
inductive Json where
  | null : Json
  | bool : Bool → Json
  | num : Int → Json
  | str : String → Json
  | arr : List Json → Json
  | obj : List (String × Json) → Json
deriving Repr

namespace Json

/-- JavaScript truthiness of a defined value: `null`, `false`, `0` and the
empty string are falsy; arrays and objects are always truthy. -/
def truthy : Json → Bool
  | .null => false
  | .bool b => b
  | .num n => n != 0
  | .str s => s ≠ ""
  | .arr _ => true
  | .obj _ => true

/-- Property access `v.k` on a defined, non-null value: objects look up the
first binding of the key; every other shape yields `undefined`.  (Access on
`null`/`undefined` throws and is handled at use sites.) -/
def getF : Json → String → Option Json
  | .obj fs, k => (fs.find? (fun p => p.1 = k)).map (fun p => p.2)
  | _, _ => none

/-- The JavaScript `.length` property as used by `parseAPIResponse`:
array length, string length, or an explicit `length` field of an object. -/
def jsLength : Json → Option Json
  | .arr xs => some (.num xs.length)
  | .str s => some (.num s.length)
  | .obj fs => getF (.obj fs) "length"
  | _ => none

/-- Indexing `v[0]`: head of an array, `"0"` field of an object, first
character of a string. -/
def index0 : Json → Option Json
  | .arr xs => xs.head?
  | .obj fs => getF (.obj fs) "0"
  | .str s =>
      match s.toList with
      | [] => none
      | c :: _ => some (.str (String.mk [c]))
  | _ => none

end Json

/-- `a || d` for a possibly-undefined value `a`: the value itself when it
is defined and truthy, otherwise the default `d`. -/
def jsOr (a : Option Json) (d : Json) : Json :=
  match a with
  | some j => if j.truthy then j else d
  | none => d

/-- Truthiness of a possibly-undefined value. -/
def jsTruthy (a : Option Json) : Bool :=
  match a with
  | some j => j.truthy
  | none => false

mutual

/-- JavaScript `String(v)` / template-literal conversion of a defined
value: `[object Object]` for objects, comma separated recursive display for
arrays. -/
def Json.display : Json → String
  | .null => "null"
  | .bool b => cond b "true" "false"
  | .num n => toString n
  | .str s => s
  | .arr xs => displayCSV xs
  | .obj _ => "[object Object]"

/-- `Array.prototype.toString`: elements joined with `,`, where `null`
elements render as the empty string. -/
def displayCSV : List Json → String
  | [] => ""
  | [x] => match x with
           | .null => ""
           | x => Json.display x
  | x :: xs =>
      (match x with
       | .null => ""
       | x => Json.display x) ++ "," ++ displayCSV xs

end

/-- Template-literal conversion of a possibly-undefined value
(`String(undefined) = "undefined"`). -/
def optDisplay (a : Option Json) : String :=
  match a with
  | some j => j.display
  | none => "undefined"

/-- Minimal string escaping of `JSON.stringify`. -/
def escapeJsonChars : List Char → String
  | [] => ""
  | c :: cs =>
      (if c = '"' then "\\\""
       else if c = '\\' then "\\\\"
       else if c = '\n' then "\\n"
       else if c = '\t' then "\\t"
       else if c = '\r' then "\\r"
       else String.mk [c]) ++ escapeJsonChars cs

mutual

/-- `JSON.stringify` on a defined value. -/
def Json.stringify : Json → String
  | .null => "null"
  | .bool b => cond b "true" "false"
  | .num n => toString n
  | .str s => "\"" ++ escapeJsonChars s.toList ++ "\""
  | .arr xs => "[" ++ stringifyList xs ++ "]"
  | .obj fs => "\x7b" ++ stringifyFields fs ++ "\x7d"

/-- Comma-separated `JSON.stringify` of array elements. -/
def stringifyList : List Json → String
  | [] => ""
  | [x] => Json.stringify x
  | x :: xs => Json.stringify x ++ "," ++ stringifyList xs

/-- Comma-separated `JSON.stringify` of object fields. -/
def stringifyFields : List (String × Json) → String
  | [] => ""
  | [(k, v)] => "\"" ++ escapeJsonChars k.toList ++ "\":" ++ Json.stringify v
  | (k, v) :: fs =>
      "\"" ++ escapeJsonChars k.toList ++ "\":" ++ Json.stringify v ++ "," ++ stringifyFields fs

end

/-! ## A model of `JSON.parse`

`executeTool` parses the tool-call argument string with `JSON.parse`,
falling back to `{}` when parsing throws.  We model the JSON fragment the
agent exchanges (null, booleans, integer numbers, strings with basic
escapes, arrays, objects); any other input fails to parse, which the
caller treats exactly like a thrown `SyntaxError`. -/

/-- Skip JSON whitespace. -/
def skipWs : List Char → List Char
  | c :: cs => if c = ' ' ∨ c = '\t' ∨ c = '\n' ∨ c = '\r' then skipWs cs else c :: cs
  | [] => []

/-- Parse the remainder of a JSON string literal (after the opening
quote), with the basic escapes. -/
def parseStrAux : List Char → String → Option (String × List Char)
  | [], _ => none
  | '"' :: cs, acc => some (acc, cs)
  | '\\' :: e :: cs, acc =>
      if e = '"' then parseStrAux cs (acc.push '"')
      else if e = '\\' then parseStrAux cs (acc.push '\\')
      else if e = '/' then parseStrAux cs (acc.push '/')
      else if e = 'n' then parseStrAux cs (acc.push '\n')
      else if e = 't' then parseStrAux cs (acc.push '\t')
      else if e = 'r' then parseStrAux cs (acc.push '\r')
      else none
  | c :: cs, acc => parseStrAux cs (acc.push c)

/-- Decimal value of a digit run. -/
def digitsVal (ds : List Char) : Nat :=
  ds.foldl (fun acc c => acc * 10 + (c.toNat - 48)) 0

/-- The opening brace character. -/
def braceOpen : Char := Char.ofNat 123

/-- The closing brace character. -/
def braceClose : Char := Char.ofNat 125

mutual

/-- Parse one JSON value; the fuel bounds nesting depth. -/
def parseVal : Nat → List Char → Option (Json × List Char)
  | 0, _ => none
  | Nat.succ fuel, cs =>
      match skipWs cs with
      | 'n' :: 'u' :: 'l' :: 'l' :: rest => some (.null, rest)
      | 't' :: 'r' :: 'u' :: 'e' :: rest => some (.bool true, rest)
      | 'f' :: 'a' :: 'l' :: 's' :: 'e' :: rest => some (.bool false, rest)
      | '"' :: rest => (parseStrAux rest "").map (fun p => (.str p.1, p.2))
      | '[' :: rest =>
          (match skipWs rest with
           | ']' :: r2 => some (.arr [], r2)
           | cs2 => (parseItems fuel cs2).map (fun p => (.arr p.1, p.2)))
      | '-' :: rest =>
          (match rest.span Char.isDigit with
           | ([], _) => none
           | (ds, r2) => some (.num (-(digitsVal ds : Int)), r2))
      | c :: rest =>
          if c = braceOpen then
            (match skipWs rest with
             | c2 :: r2 =>
                 if c2 = braceClose then some (.obj [], r2)
                 else (parseFields fuel (c2 :: r2)).map (fun p => (.obj p.1, p.2))
             | [] => none)
          else if c.isDigit then
            (match (c :: rest).span Char.isDigit with
             | (ds, r2) => some (.num (digitsVal ds : Int), r2))
          else none
      | [] => none

/-- Parse comma-separated array elements up to the closing bracket. -/
def parseItems : Nat → List Char → Option (List Json × List Char)
  | 0, _ => none
  | Nat.succ fuel, cs => do
      let (v, r) ← parseVal fuel cs
      match skipWs r with
      | ',' :: r2 => (parseItems fuel r2).map (fun p => (v :: p.1, p.2))
      | ']' :: r2 => some ([v], r2)
      | _ => none

/-- Parse comma-separated object fields up to the closing brace. -/
def parseFields : Nat → List Char → Option (List (String × Json) × List Char)
  | 0, _ => none
  | Nat.succ fuel, cs =>
      match skipWs cs with
      | '"' :: rest => do
          let (k, r) ← parseStrAux rest ""
          match skipWs r with
          | ':' :: r2 => do
              let (v, r3) ← parseVal fuel r2
              match skipWs r3 with
              | ',' :: r4 => (parseFields fuel r4).map (fun p => ((k, v) :: p.1, p.2))
              | c :: r4 =>
                  if c = braceClose then some ([(k, v)], r4) else none
              | [] => none
          | _ => none
      | _ => none

end

/-- `JSON.parse`: `none` models a thrown `SyntaxError`. -/
def jsonParse (s : String) : Option Json :=
  match parseVal (s.length + 1) s.toList with
  | some (v, rest) => if skipWs rest = [] then some v else none
  | none => none

example : jsonParse "null" = some Json.null := by rfl
example : jsonParse "\x7bnot json" = none := by rfl
example : jsonParse " \x7b\"query\": \"IBM\"\x7d " =
    some (Json.obj [("query", Json.str "IBM")]) := by rfl
example : jsonParse "[1, -2, true]" =
    some (Json.arr [Json.num 1, Json.num (-2), Json.bool true]) := by rfl


mutual

/-- Boolean equality on `Json` values. -/
def Json.beq : Json → Json → Bool
  | .null, .null => true
  | .bool a, .bool b => a == b
  | .num a, .num b => a == b
  | .str a, .str b => a == b
  | .arr a, .arr b => beqList a b
  | .obj a, .obj b => beqFields a b
  | _, _ => false

/-- Boolean equality on lists of `Json` values. -/
def beqList : List Json → List Json → Bool
  | [], [] => true
  | a :: as, b :: bs => Json.beq a b && beqList as bs
  | _, _ => false

/-- Boolean equality on `Json` object field lists. -/
def beqFields : List (String × Json) → List (String × Json) → Bool
  | [], [] => true
  | (k, v) :: as, (l, w) :: bs => k == l && Json.beq v w && beqFields as bs
  | _, _ => false

end

mutual

theorem Json.eq_of_beq : ∀ a b : Json, Json.beq a b = true → a = b
  | .null, .null, _ => rfl
  | .bool a, .bool b, h => by simpa [Json.beq] using h
  | .num a, .num b, h => by simpa [Json.beq] using h
  | .str a, .str b, h => by simpa [Json.beq] using h
  | .arr a, .arr b, h => by
      rw [eqList_of_beqList a b (by simpa [Json.beq] using h)]
  | .obj a, .obj b, h => by
      rw [eqFields_of_beqFields a b (by simpa [Json.beq] using h)]

theorem eqList_of_beqList : ∀ a b : List Json, beqList a b = true → a = b
  | [], [], _ => rfl
  | a :: as, b :: bs, h => by
      have h' := h
      simp only [beqList, Bool.and_eq_true] at h'
      rw [Json.eq_of_beq a b h'.1, eqList_of_beqList as bs h'.2]

theorem eqFields_of_beqFields :
    ∀ a b : List (String × Json), beqFields a b = true → a = b
  | [], [], _ => rfl
  | (k, v) :: as, (l, w) :: bs, h => by
      have h' := h
      simp only [beqFields, Bool.and_eq_true] at h'
      rw [Json.eq_of_beq v w h'.1.2, eqFields_of_beqFields as bs h'.2]
      have : k = l := by simpa using h'.1.1
      rw [this]

end

mutual

theorem Json.beq_refl : ∀ a : Json, Json.beq a a = true
  | .null => rfl
  | .bool a => by simp [Json.beq]
  | .num a => by simp [Json.beq]
  | .str a => by simp [Json.beq]
  | .arr a => by simpa [Json.beq] using beqList_refl a
  | .obj a => by simpa [Json.beq] using beqFields_refl a

theorem beqList_refl : ∀ a : List Json, beqList a a = true
  | [] => rfl
  | a :: as => by simp [beqList, Json.beq_refl a, beqList_refl as]

theorem beqFields_refl : ∀ a : List (String × Json), beqFields a a = true
  | [] => rfl
  | (k, v) :: as => by simp [beqFields, Json.beq_refl v, beqFields_refl as]

end

instance : DecidableEq Json := fun a b =>
  if h : Json.beq a b = true then isTrue (Json.eq_of_beq a b h)
  else isFalse (fun he => h (he ▸ Json.beq_refl a))

/-! ## Response normalization (`parseAPIResponse`, src/agent.js:554-573)

The normalizer returns an object carrying only a `content` field; its
`catch` converts any exception from the dereferencing chain into the fixed
message below. -/

/-- The message of the error rethrown by `parseAPIResponse`'s catch. -/
def parseErrMsg : String := "Could not parse the API response."

/-- Optional chaining `v?.k`: `undefined` on `undefined`/`null`, property
access otherwise. -/
def optChain (v : Option Json) (k : String) : Option Json :=
  match v with
  | none => none
  | some .null => none
  | some j => j.getF k

/-- `v?.length` on a possibly-undefined value. -/
def optLength (v : Option Json) : Option Json :=
  match v with
  | none => none
  | some .null => none
  | some j => j.jsLength

/-- One element of `parts.map(p => p.text || p)` followed by `join('')`:
property access throws on `null`, and `join` renders `null` as `""`. -/
def mapTexts : List Json → Except String (List String)
  | [] => .ok []
  | p :: ps =>
      match p with
      | .null => .error parseErrMsg
      | p =>
          (mapTexts ps).map (fun l =>
            (match jsOr (p.getF "text") p with
             | .null => ""
             | j => j.display) :: l)

/-- The content computed by `parseAPIResponse` (src/agent.js:554-573):
chat-completion shape first, then the `candidates` shape, then the
fallback dump; any exception becomes `parseErrMsg`. -/
def parseContent (data : Option Json) : Except String Json :=
  let choices := optChain data "choices"
  if jsTruthy (optLength choices) then
    match choices with
    | some cj =>
        (match cj.index0 with
         | none => .error parseErrMsg
         | some .null => .error parseErrMsg
         | some c0 =>
             let msg := jsOr (c0.getF "message") (.obj [])
             .ok (jsOr (msg.getF "content") (jsOr (c0.getF "text") (.str ""))))
    | none => .error parseErrMsg
  else
    let cands := optChain data "candidates"
    if jsTruthy (optLength cands) then
      match cands with
      | some kj =>
          (match kj.index0 with
           | none => .error parseErrMsg
           | some .null => .error parseErrMsg
           | some c0 =>
               let contO := c0.getF "content"
               let parts := jsOr (optChain contO "parts") (jsOr contO (.arr []))
               match parts with
               | .arr xs => (mapTexts xs).map (fun l => Json.str (String.join l))
               | p => .ok p)
      | none => .error parseErrMsg
    else
      match data with
      | some (.str s) => .ok (.str s)
      | _ => .ok (.str "Received an unrecognized response format.")

/-- Normalized model response as the agent loop reads it:
`content` and the optional `tool_calls` list (`none` = the field is
absent on the parsed object). -/
structure ModelResponse where
  content : Json
  tool_calls : Option (List Json)
deriving DecidableEq

/-- `parseAPIResponse` (src/agent.js:554-573): every returned object is a
literal carrying only a `content` field, so `tool_calls` is always
absent. -/
def parseAPIResponse (data : Option Json) : Except String ModelResponse :=
  (parseContent data).map (fun c => ⟨c, none⟩)

example : parseAPIResponse (some (Json.obj [("choices", Json.arr
    [Json.obj [("message", Json.obj [("content", Json.str "hi")])]])])) =
    .ok ⟨Json.str "hi", none⟩ := by rfl

example : parseAPIResponse (some (Json.obj [("candidates", Json.arr
    [Json.obj [("content", Json.obj [("parts",
      Json.arr [Json.obj [("text", Json.str "ab")], Json.obj [("text", Json.str "cd")]])])]])])) =
    .ok ⟨Json.str "abcd", none⟩ := by rfl

example : parseAPIResponse (some (Json.num 3)) =
    .ok ⟨Json.str "Received an unrecognized response format.", none⟩ := by rfl

/-! ## Tool dispatch (`executeTool`, src/agent.js:578-601)

The four registered executors are the seam the spec treats as external
collaborators; `stubImpls` is the source's stub implementations
(src/agent.js:598-601).  `executeTool`'s `try` covers only argument
parsing: an exception from the executor itself propagates and, through
`Promise.all` (src/agent.js:465), rejects the whole dispatch. -/

/-- The four registered tool executors (the Tool Registry's executor
column); each models an `async` function: `.error` is a rejection. -/
structure ToolImpls where
  web_search : Json → Except String Json
  execute_code : Json → Except String Json
  process_file : Json → Except String Json
  create_visualization : Json → Except String Json

/-- `const func = toolCall.function || {}; const name = func.name || 'unknown'`
(src/agent.js:579-580). -/
def toolName (tc : Json) : Json :=
  jsOr ((jsOr (tc.getF "function") (.obj [])).getF "name") (.str "unknown")

/-- Defensive argument parsing (src/agent.js:581-586): absent/falsy
payload or a parse failure yields `{}`; a string payload is `JSON.parse`d,
any other payload is used as-is.  Note `JSON.parse("null")` succeeds and
yields `null`. -/
def parsedArgs (tc : Json) : Json :=
  match tc.getF "arguments" with
  | some a =>
      if a.truthy then
        match a with
        | .str s => (jsonParse s).getD (.obj [])
        | _ => a
      else .obj []
  | none => .obj []

/-- Result value of `executeWebSearch` (src/agent.js:598). -/
def webSearchBody (args : Json) : Json :=
  .obj [("status", .str ("Simulated search for: " ++ optDisplay (args.getF "query"))),
        ("items", .arr [])]

/-- Result value of `executeCode` (src/agent.js:599). -/
def executeCodeBody (args : Json) : Json :=
  .obj [("output", .str ("Simulated execution of: " ++ optDisplay (args.getF "code")))]

/-- Result value of `processFile` (src/agent.js:600). -/
def processFileBody (args : Json) : Json :=
  .obj [("result", .str ("Simulated " ++ optDisplay (args.getF "operation") ++
        " on file " ++ optDisplay (args.getF "fileId")))]

/-- Result value of `createVisualization` (src/agent.js:601). -/
def createVisualizationBody (args : Json) : Json :=
  .obj [("chartUrl", .str ("Simulated " ++ optDisplay (args.getF "type") ++
        " chart titled \"" ++ optDisplay (args.getF "title") ++ "\""))]

/-- The source's stub executors (src/agent.js:598-601).  Each destructures
its argument object in its parameter list, so calling it with `null`
throws a `TypeError`; on any other argument it resolves normally. -/
def stubImpls : ToolImpls :=
  ⟨fun a => if a = .null then .error "Cannot destructure property query of null"
            else .ok (webSearchBody a),
   fun a => if a = .null then .error "Cannot destructure property code of null"
            else .ok (executeCodeBody a),
   fun a => if a = .null then .error "Cannot destructure property fileId of null"
            else .ok (processFileBody a),
   fun a => if a = .null then .error "Cannot destructure property data of null"
            else .ok (createVisualizationBody a)⟩

/-- The `switch` body of `executeTool` after the name/argument
computation (src/agent.js:589-595). -/
def executeToolBody (impls : ToolImpls) (tc : Json) : Except String Json :=
  let name := toolName tc
  let args := parsedArgs tc
  if name = .str "web_search" then impls.web_search args
  else if name = .str "execute_code" then impls.execute_code args
  else if name = .str "process_file" then impls.process_file args
  else if name = .str "create_visualization" then impls.create_visualization args
  else .ok (.obj [("error", .str ("Unknown tool: " ++ name.display))])

/-- `executeTool` (src/agent.js:578-596): name lookup, defensive argument
parsing, then the `switch` over the registry; an unknown name returns the
error-carrying payload from the `default` branch.  Property access on a
`null` request throws at the first line. -/
def executeTool (impls : ToolImpls) (tc : Json) : Except String Json :=
  match tc with
  | .null => .error "Cannot read properties of null (reading function)"
  | tc => executeToolBody impls tc

/-- The value an `executeTool` invocation resolves to when it does not
throw (the pure content of the four stubs and of the `default` branch). -/
def executeToolOk (tc : Json) : Json :=
  let name := toolName tc
  let args := parsedArgs tc
  if name = .str "web_search" then webSearchBody args
  else if name = .str "execute_code" then executeCodeBody args
  else if name = .str "process_file" then processFileBody args
  else if name = .str "create_visualization" then createVisualizationBody args
  else .obj [("error", .str ("Unknown tool: " ++ name.display))]

/-- `Promise.all(toolCalls.map(tc => executeTool(tc)))` (src/agent.js:465):
resolves to the results in request order, or rejects as a whole with the
first rejection. -/
def dispatchAll (impls : ToolImpls) : List Json → Except String (List Json)
  | [] => .ok []
  | tc :: rest =>
      match executeTool impls tc with
      | .error e => .error e
      | .ok r => (dispatchAll impls rest).map (fun rs => r :: rs)

theorem executeTool_of_ne_null (impls : ToolImpls) (tc : Json) (h0 : tc ≠ .null) :
    executeTool impls tc = executeToolBody impls tc := by
  cases tc <;> simp_all [executeTool]

theorem executeTool_stub_ok (tc : Json) (h0 : tc ≠ .null) (h1 : parsedArgs tc ≠ .null) :
    executeTool stubImpls tc = .ok (executeToolOk tc) := by
  rw [executeTool_of_ne_null stubImpls tc h0]
  simp only [executeToolBody, executeToolOk, stubImpls]
  split_ifs <;> simp [h1]

theorem executeTool_unknown (impls : ToolImpls) (tc : Json) (name : String)
    (h0 : tc ≠ .null) (hname : toolName tc = .str name)
    (h1 : name ≠ "web_search") (h2 : name ≠ "execute_code")
    (h3 : name ≠ "process_file") (h4 : name ≠ "create_visualization") :
    executeTool impls tc = .ok (.obj [("error", .str ("Unknown tool: " ++ name))]) := by
  rw [executeTool_of_ne_null impls tc h0]
  simp only [executeToolBody]
  simp [hname, Json.display, h1, h2, h3, h4]

/-! ## The agent loop (`agentLoop`, src/agent.js:435-485)

One invocation runs up to `maxTurns = 5` iterations.  Each iteration
models: `callLLM` + `parseAPIResponse` (abstracted as the iteration's
`step` outcome), the conditional assistant append (line 457-459), the
tool branch (lines 461-475) and the surrounding `try/catch` (lines
479-483).  Conversation messages are an append-only list. -/

/-- A stored conversation message.  `content = none` models `null` content
(the raw tool-call assistant record pushed at line 464). -/
structure Message where
  role : String
  content : Option Json
  tool_calls : List Json
  tool_call_id : Option Json
  name : Option Json
deriving DecidableEq

/-- A message as appended by `addMessage` (src/agent.js:606-630): role and
non-null content (id and timestamp are not modelled). -/
def mkMsg (role : String) (content : Json) : Message :=
  ⟨role, some content, [], none, none⟩

/-- The raw assistant record with `null` content and the tool-call list
pushed at src/agent.js:464. -/
def toolCallsMsg (tcs : List Json) : Message :=
  ⟨"assistant", none, tcs, none, none⟩

/-- `toolCall.function.name` as read when building tool-role records
(src/agent.js:470), after `usingNames` has already dereferenced
`function`. -/
def rawToolName (tc : Json) : Option Json :=
  match tc.getF "function" with
  | some f => f.getF "name"
  | none => none

/-- The two records appended per tool result: the raw push at
src/agent.js:467-472 and the `addMessage('tool', ...)` copy at line 473. -/
def toolResultMsg (tc r : Json) : List Message :=
  [⟨"tool", some (.str r.stringify), [], tc.getF "id", rawToolName tc⟩,
   mkMsg "tool" (.str r.stringify)]

/-- All records appended by the `forEach` over the settled results
(src/agent.js:466-474), in request order. -/
def toolResultMsgs (tcs results : List Json) : List Message :=
  (results.zip tcs).flatMap (fun p => toolResultMsg p.2 p.1)

/-- `response.tool_calls.map(tc => tc.function.name)` (src/agent.js:463):
throws when a request is `null` or lacks a `function` object. -/
def namesList : List Json → Except String (List (Option Json))
  | [] => .ok []
  | .null :: _ => .error "Cannot read properties of null (reading function)"
  | tc :: rest =>
      match tc.getF "function" with
      | none => .error "Cannot read properties of undefined (reading name)"
      | some .null => .error "Cannot read properties of null (reading name)"
      | some f => (namesList rest).map (fun l => f.getF "name" :: l)

/-- The `Using tools: ...` name join (src/agent.js:463): `join(', ')`
renders `undefined`/`null` names as the empty string. -/
def usingNames (tcs : List Json) : Except String String :=
  (namesList tcs).map (fun l =>
    String.intercalate ", " (l.map (fun o =>
      match o with
      | none => ""
      | some .null => ""
      | some j => j.display)))

/-- The `Executing tool: <name>` system records appended from inside each
`executeTool` call (src/agent.js:588); a `null` request throws before
reaching that line. -/
def execNotices (tcs : List Json) : List Message :=
  tcs.filterMap (fun tc =>
    match tc with
    | .null => none
    | tc => some (mkMsg "system" (.str ("Executing tool: " ++ (toolName tc).display))))

/-- Observable state of one `agentLoop` invocation: the conversation's
message list, the number of model calls performed (AWAIT_MODEL
transitions), the number of tool dispatches entered, and whether the
iteration `catch` (src/agent.js:479-483) ran. -/
structure LoopState where
  messages : List Message
  calls : Nat
  dispatches : Nat
  errored : Bool
deriving DecidableEq

/-- Append one message. -/
def addMsg (s : LoopState) (m : Message) : LoopState :=
  ⟨s.messages ++ [m], s.calls, s.dispatches, s.errored⟩

/-- The iteration `catch` (src/agent.js:479-483): append a system
diagnostic and break. -/
def errBreak (s : LoopState) (e : String) : LoopState :=
  ⟨s.messages ++ [mkMsg "system" (.str ("Agent iteration error: " ++ e))],
   s.calls, s.dispatches, true⟩

/-- Outcome of one loop iteration: `halt` leaves the loop (the `break`
paths and the `catch`), `next` loops again (the tool branch). -/
inductive IterOut where
  | halt : LoopState → IterOut
  | next : LoopState → IterOut

/-- The state carried by an iteration outcome. -/
def IterOut.state : IterOut → LoopState
  | .halt s => s
  | .next s => s

/-- The appends performed by the tool branch before the dispatch settles
(src/agent.js:457-465): the optional assistant content, the `Using tools`
notice, the raw tool-call record, and the per-request `Executing tool`
notices emitted as the executors start. -/
def dispatchPre (s : LoopState) (r : ModelResponse) (tcs : List Json)
    (nameStr : String) : LoopState :=
  let s1 := if r.content.truthy then addMsg s (mkMsg "assistant" r.content) else s
  let s2 := addMsg s1 (mkMsg "assistant" (.str ("Using tools: " ++ nameStr)))
  let s3 := addMsg s2 (toolCallsMsg tcs)
  ⟨s3.messages ++ execNotices tcs, s3.calls, s3.dispatches + 1, s3.errored⟩

/-- One iteration body of `agentLoop` (src/agent.js:441-483), given the
outcome `out` of `parseAPIResponse(await callLLM(...))` for this
iteration. -/
def loopIter (impls : ToolImpls) (out : Except String ModelResponse) (s : LoopState) : IterOut :=
  match out with
  | .error e => .halt (errBreak s e)
  | .ok r =>
      let s1 := if r.content.truthy then addMsg s (mkMsg "assistant" r.content) else s
      match r.tool_calls with
      | none => .halt s1
      | some tcs =>
          match tcs with
          | [] => .halt s1
          | _ :: _ =>
              match usingNames tcs with
              | .error e => .halt (errBreak s1 e)
              | .ok nameStr =>
                  let s4 := dispatchPre s r tcs nameStr
                  match dispatchAll impls tcs with
                  | .error e => .halt (errBreak s4 e)
                  | .ok results =>
                      .next ⟨s4.messages ++ toolResultMsgs tcs results,
                             s4.calls, s4.dispatches, s4.errored⟩

/-- The `while (maxTurns-- > 0)` loop (src/agent.js:439-484): `fuel`
remaining turns, `i` the index of the next model call. -/
def agentLoopGo (impls : ToolImpls) (step : Nat → Except String ModelResponse) :
    Nat → Nat → LoopState → LoopState
  | 0, _, s => s
  | Nat.succ fuel, i, s =>
      match loopIter impls (step i) ⟨s.messages, s.calls + 1, s.dispatches, s.errored⟩ with
      | .halt s2 => s2
      | .next s2 => agentLoopGo impls step fuel (i + 1) s2

/-- One `agentLoop(conversationId)` invocation (src/agent.js:435-485) on a
conversation whose current message list is `init`, with `maxTurns = 5`;
`step i` is the outcome of the i-th `parseAPIResponse(await callLLM(...))`. -/
def agentLoopRun (impls : ToolImpls) (step : Nat → Except String ModelResponse)
    (init : List Message) : LoopState :=
  agentLoopGo impls step 5 0 ⟨init, 0, 0, false⟩

/-- The composed per-iteration outcome when the raw gateway data of each
call is given by `gw`: `callLLM` may throw, otherwise its JSON result is
normalized by `parseAPIResponse` (src/agent.js:443,456). -/
def stepThroughParser (gw : Nat → Except String Json) (i : Nat) :
    Except String ModelResponse :=
  match gw i with
  | .error e => .error e
  | .ok d => parseAPIResponse (some d)

theorem loopIter_calls (impls : ToolImpls) (out : Except String ModelResponse)
    (s : LoopState) : (loopIter impls out s).state.calls = s.calls := by
  cases out with
  | error e => rfl
  | ok r =>
      simp only [loopIter]
      repeat' split
      all_goals simp [IterOut.state, addMsg, errBreak, dispatchPre]
      all_goals split <;> simp [addMsg]

theorem agentLoopGo_calls_le (impls : ToolImpls)
    (step : Nat → Except String ModelResponse) :
    ∀ (fuel i : Nat) (s : LoopState),
      (agentLoopGo impls step fuel i s).calls ≤ s.calls + fuel
  | 0, _, s => Nat.le_refl _
  | Nat.succ fuel, i, s => by
      simp only [agentLoopGo]
      have hcalls := loopIter_calls impls (step i) ⟨s.messages, s.calls + 1, s.dispatches, s.errored⟩
      cases hout : loopIter impls (step i) ⟨s.messages, s.calls + 1, s.dispatches, s.errored⟩ with
      | halt s2 =>
          rw [hout] at hcalls
          simp only [IterOut.state] at hcalls
          show s2.calls ≤ s.calls + (fuel + 1)
          omega
      | next s2 =>
          rw [hout] at hcalls
          simp only [IterOut.state] at hcalls
          show (agentLoopGo impls step fuel (i + 1) s2).calls ≤ s.calls + (fuel + 1)
          have := agentLoopGo_calls_le impls step fuel (i + 1) s2
          omega

theorem parse_no_tool_calls (d : Option Json) (r : ModelResponse)
    (h : parseAPIResponse d = .ok r) : r.tool_calls = none := by
  unfold parseAPIResponse at h
  cases hp : parseContent d with
  | error e => rw [hp] at h; simp [Except.map] at h
  | ok c =>
      rw [hp] at h
      simp only [Except.map, Except.ok.injEq] at h
      rw [← h]

theorem loopIter_no_tools (impls : ToolImpls) (r : ModelResponse) (s : LoopState)
    (h : r.tool_calls = none ∨ r.tool_calls = some []) :
    loopIter impls (.ok r) s =
      .halt (if r.content.truthy then addMsg s (mkMsg "assistant" r.content) else s) := by
  rcases h with h | h <;> simp [loopIter, h]

theorem agentLoopRun_eq (impls : ToolImpls) (step : Nat → Except String ModelResponse)
    (init : List Message) :
    agentLoopRun impls step init =
      (match loopIter impls (step 0) ⟨init, 1, 0, false⟩ with
       | .halt s2 => s2
       | .next s2 => agentLoopGo impls step 4 1 s2) := rfl

/-- A chat-completion payload used to instantiate universally quantified
statements at a concrete input. -/
def sampleChatData : Json :=
  Json.obj [("choices", Json.arr [Json.obj [("message",
    Json.obj [("content", Json.str "hi")])]])]

/-- C1: every payload normalized by `parseAPIResponse` carries only
content and never a tool-call list, so the tool-dispatch branch of the
agent loop is unreachable and each invocation performs exactly one model
call. -/
theorem c1_normalizer_never_tool_calls (d : Option Json) (r : ModelResponse)
    (h : parseAPIResponse d = .ok r) (impls : ToolImpls)
    (gw : Nat → Except String Json) (init : List Message) :
    r.tool_calls = none ∧
    (agentLoopRun impls (stepThroughParser gw) init).calls = 1 ∧
    (agentLoopRun impls (stepThroughParser gw) init).dispatches = 0 := by
  refine ⟨parse_no_tool_calls d r h, ?_⟩
  rw [agentLoopRun_eq]
  cases hgw : gw 0 with
  | error e =>
      simp [stepThroughParser, hgw, loopIter, errBreak]
  | ok d0 =>
      cases hp : parseAPIResponse (some d0) with
      | error e =>
          simp [stepThroughParser, hgw, hp, loopIter, errBreak]
      | ok r0 =>
          have hnone := parse_no_tool_calls (some d0) r0 hp
          have : stepThroughParser gw 0 = .ok r0 := by
            simp [stepThroughParser, hgw, hp]
          rw [this, loopIter_no_tools impls r0 _ (Or.inl hnone)]
          by_cases hc : r0.content.truthy <;> simp [hc, addMsg]

theorem c1_witness :
    (⟨Json.str "hi", none⟩ : ModelResponse).tool_calls = none ∧
    (agentLoopRun stubImpls
      (stepThroughParser (fun _ => .ok sampleChatData)) []).calls = 1 ∧
    (agentLoopRun stubImpls
      (stepThroughParser (fun _ => .ok sampleChatData)) []).dispatches = 0 :=
  c1_normalizer_never_tool_calls (some sampleChatData) ⟨Json.str "hi", none⟩
    (by rfl) stubImpls (fun _ => .ok sampleChatData) []

/-- The iteration outcome is a successful response carrying a non-empty
tool-call list (the premise of the turn-budget property). -/
def hasToolCalls (out : Except String ModelResponse) : Prop :=
  ∃ r tcs, out = .ok r ∧ r.tool_calls = some tcs ∧ tcs ≠ []

/-- A well-formed tool-calling response: every request has a non-null
`function` object and arguments that do not parse to JSON `null`, so the
dispatch settles without a rejection. -/
def goodToolStep (out : Except String ModelResponse) : Prop :=
  ∃ r tcs, out = .ok r ∧ r.tool_calls = some tcs ∧ tcs ≠ [] ∧
    ∀ tc ∈ tcs, (∃ f, tc.getF "function" = some f ∧ f ≠ .null) ∧ parsedArgs tc ≠ .null

theorem getF_ne_null {tc : Json} {k : String} {f : Json}
    (h : tc.getF k = some f) : tc ≠ .null := by
  intro he; rw [he] at h; simp [Json.getF] at h

theorem namesList_ok (tcs : List Json)
    (h : ∀ tc ∈ tcs, ∃ f, tc.getF "function" = some f ∧ f ≠ .null) :
    ∃ l, namesList tcs = .ok l := by
  induction tcs with
  | nil => exact ⟨[], rfl⟩
  | cons tc rest ih =>
      obtain ⟨f, hf, hfn⟩ := h tc (List.mem_cons_self tc rest)
      obtain ⟨l, hl⟩ := ih (fun t ht => h t (List.mem_cons_of_mem tc ht))
      cases tc with
      | null => exact absurd rfl (getF_ne_null hf)
      | bool b => exact absurd hf (by simp [Json.getF])
      | num n => exact absurd hf (by simp [Json.getF])
      | str st => exact absurd hf (by simp [Json.getF])
      | arr xs => exact absurd hf (by simp [Json.getF])
      | obj fs =>
          refine ⟨f.getF "name" :: l, ?_⟩
          cases f <;> first
            | exact absurd rfl hfn
            | simp [namesList, hf, hl, Except.map]

theorem dispatchAll_ok (impls : ToolImpls) (tcs : List Json)
    (h : ∀ tc ∈ tcs, executeTool impls tc = .ok (executeToolOk tc)) :
    dispatchAll impls tcs = .ok (tcs.map executeToolOk) := by
  induction tcs with
  | nil => rfl
  | cons tc rest ih =>
      have h1 := h tc (List.mem_cons_self tc rest)
      have h2 := ih (fun t ht => h t (List.mem_cons_of_mem tc ht))
      simp [dispatchAll, h1, h2, Except.map]

theorem loopIter_settles (impls : ToolImpls) (out : Except String ModelResponse)
    (s : LoopState) (r : ModelResponse) (tcs rs : List Json)
    (hout : out = .ok r) (htc : r.tool_calls = some tcs) (hne : tcs ≠ [])
    (hfn : ∀ tc ∈ tcs, ∃ f, tc.getF "function" = some f ∧ f ≠ .null)
    (hd : dispatchAll impls tcs = .ok rs) :
    ∃ s2, loopIter impls out s = .next s2 ∧
      s2.calls = s.calls ∧ s2.errored = s.errored := by
  subst hout
  obtain ⟨l, hl⟩ := namesList_ok tcs hfn
  obtain ⟨ns, hu⟩ : ∃ ns, usingNames tcs = .ok ns := by
    unfold usingNames
    rw [hl]
    exact ⟨_, rfl⟩
  cases tcs with
  | nil => exact absurd rfl hne
  | cons tc0 rest =>
      refine ⟨⟨(dispatchPre s r (tc0 :: rest) ns).messages ++
               toolResultMsgs (tc0 :: rest) rs,
              (dispatchPre s r (tc0 :: rest) ns).calls,
              (dispatchPre s r (tc0 :: rest) ns).dispatches,
              (dispatchPre s r (tc0 :: rest) ns).errored⟩, ?_, ?_, ?_⟩
      · simp only [loopIter, htc, hu, hd]
      · by_cases hc : r.content.truthy <;> simp [dispatchPre, hc, addMsg]
      · by_cases hc : r.content.truthy <;> simp [dispatchPre, hc, addMsg]

theorem loopIter_good (out : Except String ModelResponse) (s : LoopState)
    (h : goodToolStep out) :
    ∃ s2, loopIter stubImpls out s = .next s2 ∧
      s2.calls = s.calls ∧ s2.errored = s.errored := by
  obtain ⟨r, tcs, hout, htc, hne, hall⟩ := h
  have hd : dispatchAll stubImpls tcs = .ok (tcs.map executeToolOk) :=
    dispatchAll_ok stubImpls tcs (fun tc ht => by
      obtain ⟨⟨f, hf, _⟩, hargs⟩ := hall tc ht
      exact executeTool_stub_ok tc (getF_ne_null hf) hargs)
  exact loopIter_settles stubImpls out s r tcs (tcs.map executeToolOk)
    hout htc hne (fun tc ht => (hall tc ht).1) hd

theorem agentLoopGo_good (step : Nat → Except String ModelResponse)
    (h : ∀ i, goodToolStep (step i)) :
    ∀ (fuel i : Nat) (s : LoopState),
      (agentLoopGo stubImpls step fuel i s).calls = s.calls + fuel ∧
      (agentLoopGo stubImpls step fuel i s).errored = s.errored
  | 0, _, _ => ⟨rfl, rfl⟩
  | Nat.succ fuel, i, s => by
      simp only [agentLoopGo]
      obtain ⟨s2, heq, hc, he⟩ :=
        loopIter_good (step i) ⟨s.messages, s.calls + 1, s.dispatches, s.errored⟩ (h i)
      rw [heq]
      have hrec := agentLoopGo_good step h fuel (i + 1) s2
      simp only [] at hc he
      constructor
      · show (agentLoopGo stubImpls step fuel (i + 1) s2).calls = s.calls + (fuel + 1)
        rw [hrec.1, hc]
        omega
      · show (agentLoopGo stubImpls step fuel (i + 1) s2).errored = s.errored
        rw [hrec.2, he]

/-- A well-formed tool-call request used to instantiate the turn-budget
statement at a concrete input. -/
def goodTcW : Json := Json.obj [("function", Json.obj [("name", Json.str "web_search")])]

/-- C3: with a model whose every response carries a non-empty tool-call
list, one agent loop invocation performs at most 5 model calls
(AWAIT_MODEL transitions); when the requests are well formed the budget
itself forces termination after exactly 5 calls with no error. -/
theorem c3_turn_budget_at_most_five (step : Nat → Except String ModelResponse)
    (init : List Message) (h : ∀ i, hasToolCalls (step i)) :
    (agentLoopRun stubImpls step init).calls ≤ 5 ∧
    ((∀ i, goodToolStep (step i)) →
      (agentLoopRun stubImpls step init).calls = 5 ∧
      (agentLoopRun stubImpls step init).errored = false) := by
  constructor
  · have := agentLoopGo_calls_le stubImpls step 5 0 ⟨init, 0, 0, false⟩
    simpa using this
  · intro hg
    have := agentLoopGo_good step hg 5 0 ⟨init, 0, 0, false⟩
    exact ⟨by simpa using this.1, by simpa using this.2⟩

/-- A model that always requests the sample tool call. -/
def stepAlwaysTools : Nat → Except String ModelResponse :=
  fun _ => .ok ⟨Json.str "ok", some [goodTcW]⟩

theorem c3_witness :
    (agentLoopRun stubImpls stepAlwaysTools []).calls ≤ 5 ∧
    ((∀ i, goodToolStep (stepAlwaysTools i)) →
      (agentLoopRun stubImpls stepAlwaysTools []).calls = 5 ∧
      (agentLoopRun stubImpls stepAlwaysTools []).errored = false) :=
  c3_turn_budget_at_most_five stepAlwaysTools []
    (fun _ => ⟨⟨Json.str "ok", some [goodTcW]⟩, [goodTcW], rfl, rfl, by simp⟩)

theorem agentLoopGo_calls_ge (impls : ToolImpls)
    (step : Nat → Except String ModelResponse) :
    ∀ (fuel i : Nat) (s : LoopState),
      s.calls ≤ (agentLoopGo impls step fuel i s).calls
  | 0, _, _ => Nat.le_refl _
  | Nat.succ fuel, i, s => by
      simp only [agentLoopGo]
      have hcalls := loopIter_calls impls (step i)
        ⟨s.messages, s.calls + 1, s.dispatches, s.errored⟩
      cases hout : loopIter impls (step i)
          ⟨s.messages, s.calls + 1, s.dispatches, s.errored⟩ with
      | halt s2 =>
          rw [hout] at hcalls
          simp only [IterOut.state] at hcalls
          show s.calls ≤ s2.calls
          omega
      | next s2 =>
          rw [hout] at hcalls
          simp only [IterOut.state] at hcalls
          show s.calls ≤ (agentLoopGo impls step fuel (i + 1) s2).calls
          have := agentLoopGo_calls_ge impls step fuel (i + 1) s2
          omega

/-! ## C2: dispatch cardinality, ordering and overall failure -/

/-- A request whose argument string parses to JSON `null`: the stub
executor throws while destructuring its parameter. -/
def nullArgsWsTc : Json :=
  Json.obj [("function", Json.obj [("name", Json.str "web_search")]),
            ("arguments", Json.str "null")]

/-- C2 counterexample: one well-formed `web_search` request whose
argument string is `"null"` makes the whole dispatch reject (zero Tool
Results are produced), because `JSON.parse("null")` succeeds, the stub
executor throws destructuring `null`, `executeTool` does not catch
executor exceptions, and `Promise.all` rejects as a whole. -/
theorem c2_counterexample_null_args_rejects_dispatch :
    dispatchAll stubImpls [nullArgsWsTc] =
      .error "Cannot destructure property query of null" := by rfl

/-- C2 (amended): for every request list whose invocations settle (no
request is `null` and no argument string parses to JSON `null` — true of
every invocation the built-in executors can complete), the dispatch
resolves with exactly one Tool Result per request, in request order, and
never fails as a whole. -/
theorem c2_dispatch_ordered_results (tcs : List Json)
    (h : ∀ tc ∈ tcs, tc ≠ Json.null ∧ parsedArgs tc ≠ Json.null) :
    dispatchAll stubImpls tcs = .ok (tcs.map executeToolOk) ∧
    (tcs.map executeToolOk).length = tcs.length ∧
    ∀ i : Nat, (tcs.map executeToolOk).get? i = (tcs.get? i).map executeToolOk := by
  refine ⟨?_, by simp, by simp⟩
  exact dispatchAll_ok stubImpls tcs (fun tc ht =>
    executeTool_stub_ok tc (h tc ht).1 (h tc ht).2)

/-- A `web_search` request with a well-formed argument object. -/
def wsQueryTc : Json :=
  Json.obj [("id", Json.str "call_1"),
            ("function", Json.obj [("name", Json.str "web_search")]),
            ("arguments", Json.str "\x7b\"query\":\"IBM\"\x7d")]

/-- An `execute_code` request with a well-formed argument object. -/
def codeTc : Json :=
  Json.obj [("id", Json.str "call_2"),
            ("function", Json.obj [("name", Json.str "execute_code")]),
            ("arguments", Json.str "\x7b\"code\":\"1+1\"\x7d")]

theorem c2_witness :
    dispatchAll stubImpls [wsQueryTc, codeTc] =
      .ok ([wsQueryTc, codeTc].map executeToolOk) ∧
    ([wsQueryTc, codeTc].map executeToolOk).length = [wsQueryTc, codeTc].length ∧
    ∀ i : Nat, ([wsQueryTc, codeTc].map executeToolOk).get? i =
      ([wsQueryTc, codeTc].get? i).map executeToolOk :=
  c2_dispatch_ordered_results [wsQueryTc, codeTc] (by decide)

instance {e a : Type} [DecidableEq e] [DecidableEq a] : DecidableEq (Except e a) := fun x y =>
  match x, y with
  | .ok v, .ok w =>
      if h : v = w then isTrue (by rw [h])
      else isFalse (by intro hh; cases hh; exact h rfl)
  | .error v, .error w =>
      if h : v = w then isTrue (by rw [h])
      else isFalse (by intro hh; cases hh; exact h rfl)
  | .ok _, .error _ => isFalse (by intro h; cases h)
  | .error _, .ok _ => isFalse (by intro h; cases h)

/-! ## C6: exceptions raised inside a tool executor -/

/-- Number of stored messages with the given role. -/
def countRole (role : String) (l : List Message) : Nat :=
  (l.filter (fun m => m.role == role)).length

/-- An `execute_code` request whose argument string parses to JSON
`null`. -/
def nullArgsCodeTc : Json :=
  Json.obj [("function", Json.obj [("name", Json.str "execute_code")]),
            ("arguments", Json.str "null")]

/-- A model response requesting the throwing `execute_code` invocation
together with a healthy `web_search` sibling. -/
def stepC6 : Nat → Except String ModelResponse :=
  fun _ => .ok ⟨Json.null, some [nullArgsCodeTc, wsQueryTc]⟩

/-- C6 counterexample: when the `execute_code` executor throws
(destructuring `null` arguments), the exception is NOT embedded in that
invocation's Tool Result: the whole dispatch rejects, the healthy sibling
`web_search` invocation yields no Tool Result either (zero tool-role
records are stored), and the turn terminates in the loop's `catch`. -/
theorem c6_counterexample_executor_exception_aborts_turn :
    dispatchAll stubImpls [nullArgsCodeTc, wsQueryTc] =
      .error "Cannot destructure property code of null" ∧
    (agentLoopRun stubImpls stepC6 []).errored = true ∧
    countRole "tool" (agentLoopRun stubImpls stepC6 []).messages = 0 ∧
    (agentLoopRun stubImpls stepC6 []).calls = 1 := by decide

/-- C6 (amended): an exception raised inside a tool executor is not
caught per invocation — it propagates out of `executeTool` and rejects
the whole `Promise.all` dispatch (here for the one throwing case the stub
executors have, JSON-`null` arguments); what IS absorbed per invocation
is everything `executeTool` itself handles, so any invocation whose
executor does not throw settles with a Tool Result. -/
theorem c6_executor_exception_rejects_dispatch (tc : Json) (rest : List Json)
    (h0 : tc ≠ Json.null) (h1 : toolName tc = .str "web_search")
    (h2 : parsedArgs tc = .null) :
    executeTool stubImpls tc = .error "Cannot destructure property query of null" ∧
    dispatchAll stubImpls (tc :: rest) =
      .error "Cannot destructure property query of null" ∧
    (∀ tc2, tc2 ≠ Json.null → parsedArgs tc2 ≠ Json.null →
      executeTool stubImpls tc2 = .ok (executeToolOk tc2)) := by
  have he : executeTool stubImpls tc =
      .error "Cannot destructure property query of null" := by
    rw [executeTool_of_ne_null stubImpls tc h0]
    simp [executeToolBody, h1, h2, stubImpls]
  exact ⟨he, by simp [dispatchAll, he],
    fun tc2 a b => executeTool_stub_ok tc2 a b⟩

theorem c6_witness :
    executeTool stubImpls nullArgsWsTc =
      .error "Cannot destructure property query of null" ∧
    dispatchAll stubImpls (nullArgsWsTc :: [wsQueryTc]) =
      .error "Cannot destructure property query of null" ∧
    (∀ tc2, tc2 ≠ Json.null → parsedArgs tc2 ≠ Json.null →
      executeTool stubImpls tc2 = .ok (executeToolOk tc2)) :=
  c6_executor_exception_rejects_dispatch nullArgsWsTc [wsQueryTc]
    (by decide) (by decide) (by decide)

/-! ## C9: malformed tool-call argument strings -/

/-- C9: a tool-call request whose argument payload is a truthy string
that fails to parse as JSON is executed with an empty argument object:
the parse failure is caught inside `executeTool`, the tool is still
invoked and settles with a Tool Result, and the dispatch (hence the
turn) is not aborted. -/
theorem c9_malformed_args_yield_empty_args (tc : Json) (a : String)
    (h1 : tc.getF "arguments" = some (Json.str a)) (h2 : a ≠ "")
    (h3 : jsonParse a = none) :
    parsedArgs tc = Json.obj [] ∧
    executeTool stubImpls tc = .ok (executeToolOk tc) ∧
    dispatchAll stubImpls [tc] = .ok [executeToolOk tc] := by
  have hargs : parsedArgs tc = Json.obj [] := by
    simp [parsedArgs, h1, Json.truthy, h2, h3]
  have hok : executeTool stubImpls tc = .ok (executeToolOk tc) :=
    executeTool_stub_ok tc (getF_ne_null h1) (by rw [hargs]; intro h; cases h)
  exact ⟨hargs, hok, by simp [dispatchAll, hok, Except.map]⟩

/-- A `web_search` request whose argument payload is the malformed JSON
string of the spec's test. -/
def malformedArgsTc : Json :=
  Json.obj [("function", Json.obj [("name", Json.str "web_search")]),
            ("arguments", Json.str "\x7bnot json")]

theorem c9_witness :
    parsedArgs malformedArgsTc = Json.obj [] ∧
    executeTool stubImpls malformedArgsTc = .ok (executeToolOk malformedArgsTc) ∧
    dispatchAll stubImpls [malformedArgsTc] = .ok [executeToolOk malformedArgsTc] :=
  c9_malformed_args_yield_empty_args malformedArgsTc "\x7bnot json"
    (by decide) (by decide) (by decide)

/-! ## C10: unknown tool names -/

/-- C10: a request naming a tool absent from the registry settles with
the payload exactly `{error: "Unknown tool: <name>"}` (whatever the
executor implementations are), and when such a response arrives with
budget remaining the loop proceeds to another AWAIT_MODEL transition
instead of terminating. -/
theorem c10_unknown_tool_error_and_loop_continues (impls : ToolImpls)
    (tc f : Json) (name : String) (c0 : Json)
    (step : Nat → Except String ModelResponse) (init : List Message)
    (hf : tc.getF "function" = some f) (hft : f.truthy = true)
    (hfn : f.getF "name" = some (Json.str name)) (hname : name ≠ "")
    (h1 : name ≠ "web_search") (h2 : name ≠ "execute_code")
    (h3 : name ≠ "process_file") (h4 : name ≠ "create_visualization")
    (hstep : step 0 = .ok ⟨c0, some [tc]⟩) :
    executeTool impls tc = .ok (Json.obj [("error",
      Json.str ("Unknown tool: " ++ name))]) ∧
    2 ≤ (agentLoopRun impls step init).calls := by
  have hfnn : f ≠ Json.null := by
    intro h; rw [h] at hft; simp [Json.truthy] at hft
  have htn : toolName tc = Json.str name := by
    have e1 : jsOr (some f) (Json.obj []) = f := by simp [jsOr, hft]
    unfold toolName
    rw [hf, e1, hfn]
    simp [jsOr, Json.truthy, hname]
  have hok := executeTool_unknown impls tc name (getF_ne_null hf) htn h1 h2 h3 h4
  refine ⟨hok, ?_⟩
  have hd : dispatchAll impls [tc] =
      .ok [Json.obj [("error", Json.str ("Unknown tool: " ++ name))]] := by
    simp [dispatchAll, hok, Except.map]
  obtain ⟨s2, heq, hc, _⟩ := loopIter_settles impls (step 0)
    ⟨init, 1, 0, false⟩ ⟨c0, some [tc]⟩ [tc]
    [Json.obj [("error", Json.str ("Unknown tool: " ++ name))]]
    hstep rfl (by simp) (fun t ht => by
      rw [List.mem_singleton] at ht
      exact ⟨f, ht ▸ hf, hfnn⟩) hd
  rw [agentLoopRun_eq, heq]
  show 2 ≤ (agentLoopGo impls step 4 1 s2).calls
  have hge := agentLoopGo_calls_ge impls step 4 1 s2
  simp only [] at hc
  have h4eq : (4 : Nat) = 3 + 1 := rfl
  rw [h4eq]
  have := agentLoopGo_calls_ge impls step 3 2
  have hcge : s2.calls + 1 ≤ (agentLoopGo impls step (3 + 1) 1 s2).calls := by
    simp only [agentLoopGo]
    have hcalls2 := loopIter_calls impls (step 1)
      ⟨s2.messages, s2.calls + 1, s2.dispatches, s2.errored⟩
    cases hout2 : loopIter impls (step 1)
        ⟨s2.messages, s2.calls + 1, s2.dispatches, s2.errored⟩ with
    | halt s3 =>
        rw [hout2] at hcalls2
        simp only [IterOut.state] at hcalls2
        show s2.calls + 1 ≤ s3.calls
        omega
    | next s3 =>
        rw [hout2] at hcalls2
        simp only [IterOut.state] at hcalls2
        show s2.calls + 1 ≤ (agentLoopGo impls step 3 2 s3).calls
        have := agentLoopGo_calls_ge impls step 3 2 s3
        omega
  omega

/-- A request naming a tool absent from the registry. -/
def unknownToolTc : Json :=
  Json.obj [("id", Json.str "call_9"),
            ("function", Json.obj [("name", Json.str "make_pizza")])]

/-- A model response requesting only the unknown tool. -/
def stepC10 : Nat → Except String ModelResponse :=
  fun _ => .ok ⟨Json.str "", some [unknownToolTc]⟩

theorem c10_witness :
    executeTool stubImpls unknownToolTc = .ok (Json.obj [("error",
      Json.str ("Unknown tool: " ++ "make_pizza"))]) ∧
    2 ≤ (agentLoopRun stubImpls stepC10 []).calls :=
  c10_unknown_tool_error_and_loop_continues stubImpls unknownToolTc
    (Json.obj [("name", Json.str "make_pizza")]) "make_pizza" (Json.str "")
    stepC10 [] (by decide) (by decide) (by decide) (by decide)
    (by decide) (by decide) (by decide) (by decide) rfl

/-! ## C8: one invocation with a response carrying no tool calls -/

theorem agentLoopRun_no_tools (impls : ToolImpls)
    (step : Nat → Except String ModelResponse) (init : List Message)
    (r : ModelResponse) (h1 : step 0 = .ok r)
    (h2 : r.tool_calls = none ∨ r.tool_calls = some []) :
    agentLoopRun impls step init =
      ⟨init ++ (if r.content.truthy then [mkMsg "assistant" r.content] else []),
       1, 0, false⟩ := by
  rw [agentLoopRun_eq, h1, loopIter_no_tools impls r _ h2]
  by_cases hc : r.content.truthy <;> simp [hc, addMsg]

/-- C8 (amended): after one invocation in which the first model response
carries no tool calls, the loop terminates after exactly one model call
without error, and the conversation gains exactly one assistant message
when the normalized content is truthy — and none when the content is
falsy (e.g. the empty string). -/
theorem c8_no_tool_calls_single_assistant_message (impls : ToolImpls)
    (step : Nat → Except String ModelResponse) (init : List Message)
    (r : ModelResponse) (h1 : step 0 = .ok r)
    (h2 : r.tool_calls = none ∨ r.tool_calls = some []) :
    (agentLoopRun impls step init).calls = 1 ∧
    (agentLoopRun impls step init).errored = false ∧
    (agentLoopRun impls step init).messages =
      init ++ (if r.content.truthy then [mkMsg "assistant" r.content] else []) ∧
    countRole "assistant" ((agentLoopRun impls step init).messages.drop init.length) =
      (if r.content.truthy then 1 else 0) := by
  rw [agentLoopRun_no_tools impls step init r h1 h2]
  by_cases hc : r.content.truthy <;>
    simp [hc, countRole, mkMsg, List.drop_left]

/-- A chat-completion payload whose message content is the empty
string. -/
def emptyContentData : Json :=
  Json.obj [("choices", Json.arr [Json.obj [("message",
    Json.obj [("content", Json.str "")])]])]

/-- The gateway returning the empty-content payload on every call. -/
def gwEmptyContent : Nat → Except String Json :=
  fun _ => .ok emptyContentData

/-- C8 counterexample: a model response with no tool calls whose content
is the empty string adds NO assistant message (the guard
`if (response && response.content)` is falsy), so the message store does
not gain exactly one assistant message. -/
theorem c8_counterexample_empty_content_no_assistant_message :
    parseAPIResponse (some emptyContentData) = .ok ⟨Json.str "", none⟩ ∧
    (agentLoopRun stubImpls (stepThroughParser gwEmptyContent) []).messages = [] ∧
    countRole "assistant"
      (agentLoopRun stubImpls (stepThroughParser gwEmptyContent) []).messages = 0 ∧
    (agentLoopRun stubImpls (stepThroughParser gwEmptyContent) []).calls = 1 := by
  decide

/-- The gateway returning the sample payload on every call. -/
def gwSample : Nat → Except String Json :=
  fun _ => .ok sampleChatData

theorem c8_witness :
    (agentLoopRun stubImpls (stepThroughParser gwSample) []).calls = 1 ∧
    (agentLoopRun stubImpls (stepThroughParser gwSample) []).errored = false ∧
    (agentLoopRun stubImpls (stepThroughParser gwSample) []).messages =
      [] ++ (if (Json.str "hi").truthy then
        [mkMsg "assistant" (Json.str "hi")] else []) ∧
    countRole "assistant"
      ((agentLoopRun stubImpls (stepThroughParser gwSample) []).messages.drop
        ([] : List Message).length) =
      (if (Json.str "hi").truthy then 1 else 0) :=
  c8_no_tool_calls_single_assistant_message stubImpls (stepThroughParser gwSample)
    [] ⟨Json.str "hi", none⟩ (by decide) (Or.inl rfl)

/-! ## The model gateway (`callLLM`, src/agent.js:490-552)

The HTTP world is abstracted by `HttpOutcome`: what `fetch` + `resp.json()`
did for one endpoint.  `successBad` is an HTTP-success response whose body
failed to parse (`await resp.json()` threw inside the `try`). -/

/-- Outcome of one `fetch` against one endpoint. -/
inductive HttpOutcome where
  | success (body : Json)
  | successBad (jsonErrMsg : String)
  | failure (status : Nat) (statusText : String) (errBody : Option Json)
  | netRaise (msg : String)
deriving DecidableEq

/-- The `errText` computed for a non-success response
(src/agent.js:525-526 and 543-544): `status statusText`, replaced by
`errJson.error?.message || JSON.stringify(errJson)` when the error body
parses (an exception while reading a `null` body is swallowed). -/
def errTextOf (status : Nat) (statusText : String) (errBody : Option Json) : String :=
  match errBody with
  | none => toString status ++ " " ++ statusText
  | some .null => toString status ++ " " ++ statusText
  | some j =>
      match optChain (j.getF "error") "message" with
      | some mj => if mj.truthy then mj.display else j.stringify
      | none => j.stringify

/-- The primary-endpoint error message (src/agent.js:528), which carries
the credential/model hint unconditionally for every non-success status. -/
def primaryErrMsg (status : Nat) (statusText : String) (errBody : Option Json)
    (modelName : String) : String :=
  "AI Pipe error (" ++ toString status ++ "): " ++ errTextOf status statusText errBody ++
  ". Tip: ensure your token has access to **" ++ modelName ++
  "**, or pick a listed model in Settings."

/-- The fallback-endpoint error message (src/agent.js:545): no hint. -/
def fallbackErrMsg (status : Nat) (statusText : String) (errBody : Option Json) : String :=
  "AI Pipe (fallback) error (" ++ toString status ++ "): " ++ errTextOf status statusText errBody

/-- Run one endpoint attempt: the value returned, or the message of the
exception thrown (src/agent.js:523-531 resp. 536-547). -/
def runAttempt (o : HttpOutcome) (mkErr : Nat → String → Option Json → String) :
    Except String Json :=
  match o with
  | .success b => .ok b
  | .successBad m => .error m
  | .failure st stx eb => .error (mkErr st stx eb)
  | .netRaise m => .error m

/-- The LLM settings slice destructured at src/agent.js:499 (falsy string
fields are modelled as `""`). -/
structure LLMSettings where
  provider : String
  apiKey : String
  model : String
  maxTokens : Json
  temperature : Json
  baseUrl : String
deriving DecidableEq

/-- `baseUrl.replace(/\/+$/,'')` (src/agent.js:513). -/
def stripTrailingSlashes (s : String) : String :=
  String.mk ((s.toList.reverse.dropWhile (fun c => c = '/')).reverse)

/-- `model || 'openai/gpt-4o-mini'` (src/agent.js:516). -/
def modelOrDefault (s : LLMSettings) : String :=
  if s.model = "" then "openai/gpt-4o-mini" else s.model

/-- Outbound message content (src/agent.js:492-497): strings pass
through, other defined values are `JSON.stringify`ed, `undefined`
content stays undefined (and is then filtered by `!!m.content`). -/
def apiContent : Option Json → Option String
  | some (.str s) => some s
  | some j => some j.stringify
  | none => none

/-- `messagesForApi` (src/agent.js:492-497): tool role folded to system,
falsy content filtered out. -/
def messagesForApi (msgs : List Message) : List (String × String) :=
  msgs.filterMap (fun m =>
    match apiContent m.content with
    | none => none
    | some c =>
        if c = "" then none
        else some ((if m.role = "tool" then "system" else m.role), c))

/-- The request body (src/agent.js:515-520); the fallback request rebuilds
the same four fields (src/agent.js:536-541), hence the same value. -/
def requestBody (s : LLMSettings) (msgs : List Message) : Json :=
  .obj [("model", .str (modelOrDefault s)),
        ("messages", .arr ((messagesForApi msgs).map (fun p =>
          .obj [("role", .str p.1), ("content", .str p.2)]))),
        ("max_tokens", s.maxTokens),
        ("temperature", s.temperature)]

/-- The canned demo-mode response returned when no API key is configured
(src/agent.js:503-505). -/
def demoResponseJson : Json :=
  Json.obj [("choices", Json.arr [Json.obj [("message", Json.obj [("content",
    Json.str "💡 Demo response: add your AI Pipe token in Settings to query real models.")])]])]

/-- One recorded network request: endpoint URL and JSON body. -/
structure FetchRec where
  url : String
  body : Json
deriving DecidableEq

/-- Result of one `callLLM` invocation: its return value or thrown error,
plus the network requests it issued, in order. -/
structure GatewayResult where
  result : Except String Json
  fetches : List FetchRec
deriving DecidableEq

/-- The primary endpoint URL (src/agent.js:513). -/
def apiUrlOf (s : LLMSettings) : String :=
  stripTrailingSlashes s.baseUrl ++ "/openrouter/v1/chat/completions"

/-- The fallback endpoint URL (src/agent.js:535). -/
def altUrlOf (s : LLMSettings) : String :=
  stripTrailingSlashes s.baseUrl ++ "/openai/v1/chat/completions"

/-- `callLLM` (src/agent.js:490-552): provider gate, demo-mode gate,
provider lock, then the primary attempt with the single fallback retry;
when both fail, the thrown message is
`err2.message || err.message || 'Network error'` (src/agent.js:549). -/
def callLLM (s : LLMSettings) (msgs : List Message)
    (primary fallback : HttpOutcome) : GatewayResult :=
  if s.provider = "" then ⟨.error "No LLM provider configured.", []⟩
  else if s.apiKey = "" then ⟨.ok demoResponseJson, []⟩
  else if s.provider ≠ "aipipe" then
    ⟨.error "Only AI Pipe is supported in this build. (Provider forced to AI Pipe)", []⟩
  else
    let body := requestBody s msgs
    match runAttempt primary (fun st stx eb => primaryErrMsg st stx eb (modelOrDefault s)) with
    | .ok d => ⟨.ok d, [⟨apiUrlOf s, body⟩]⟩
    | .error e1 =>
        match runAttempt fallback fallbackErrMsg with
        | .ok d => ⟨.ok d, [⟨apiUrlOf s, body⟩, ⟨altUrlOf s, body⟩]⟩
        | .error e2 =>
            ⟨.error (if e2 ≠ "" then e2 else if e1 ≠ "" then e1 else "Network error"),
             [⟨apiUrlOf s, body⟩, ⟨altUrlOf s, body⟩]⟩

/-! ## C4: endpoint fallback protocol -/

/-- Concrete settings used to instantiate gateway statements. -/
def settingsW : LLMSettings :=
  ⟨"aipipe", "tok", "m", Json.num 100, Json.num 1, "https://aipipe.org"⟩

/-- C4 counterexample: the primary endpoint answers with HTTP success
(`resp.ok`, i.e. status 200) but a body that fails `await resp.json()`;
the exception lands in the `catch` and the fallback endpoint IS called —
refuting "if the primary returns HTTP 200, the fallback is never
called". -/
theorem c4_counterexample_http200_bad_body_calls_fallback :
    (callLLM settingsW [] (.successBad "Unexpected end of JSON input")
        (.success (Json.str "ok"))).fetches.map FetchRec.url =
      ["https://aipipe.org/openrouter/v1/chat/completions",
       "https://aipipe.org/openai/v1/chat/completions"] ∧
    (callLLM settingsW [] (.successBad "Unexpected end of JSON input")
        (.success (Json.str "ok"))).result = .ok (Json.str "ok") := by
  decide

/-- C4 (amended): if the primary attempt returns HTTP success with a
JSON-parseable body, it is the only request and its body is returned —
the fallback is never called; on ANY other primary outcome (non-success
status, network raise, or an HTTP-success body that fails JSON parsing)
exactly one retry is issued against the alternate-path endpoint with the
identical payload. -/
theorem c4_fallback_protocol (s : LLMSettings) (msgs : List Message)
    (primary fallback : HttpOutcome)
    (hprov : s.provider = "aipipe") (hkey : s.apiKey ≠ "") :
    (∀ b, primary = .success b →
      (callLLM s msgs primary fallback).fetches =
        [⟨apiUrlOf s, requestBody s msgs⟩] ∧
      (callLLM s msgs primary fallback).result = .ok b) ∧
    ((∀ b, primary ≠ .success b) →
      (callLLM s msgs primary fallback).fetches =
        [⟨apiUrlOf s, requestBody s msgs⟩, ⟨altUrlOf s, requestBody s msgs⟩]) := by
  have hp1 : s.provider ≠ "" := by simp [hprov]
  constructor
  · intro b hb
    subst hb
    constructor <;> simp [callLLM, hp1, hkey, hprov, runAttempt]
  · intro hb
    cases primary with
    | success b => exact absurd rfl (hb b)
    | successBad m =>
        cases fallback <;> simp [callLLM, hp1, hkey, hprov, runAttempt]
    | failure st stx eb =>
        cases fallback <;> simp [callLLM, hp1, hkey, hprov, runAttempt]
    | netRaise m =>
        cases fallback <;> simp [callLLM, hp1, hkey, hprov, runAttempt]

theorem c4_witness :
    (∀ b, HttpOutcome.failure 500 "Internal Server Error" none = .success b →
      (callLLM settingsW [] (.failure 500 "Internal Server Error" none)
          (.failure 502 "Bad Gateway" none)).fetches =
        [⟨apiUrlOf settingsW, requestBody settingsW []⟩] ∧
      (callLLM settingsW [] (.failure 500 "Internal Server Error" none)
          (.failure 502 "Bad Gateway" none)).result = .ok b) ∧
    ((∀ b, HttpOutcome.failure 500 "Internal Server Error" none ≠ .success b) →
      (callLLM settingsW [] (.failure 500 "Internal Server Error" none)
          (.failure 502 "Bad Gateway" none)).fetches =
        [⟨apiUrlOf settingsW, requestBody settingsW []⟩,
         ⟨altUrlOf settingsW, requestBody settingsW []⟩]) :=
  c4_fallback_protocol settingsW [] (.failure 500 "Internal Server Error" none)
    (.failure 502 "Bad Gateway" none) rfl (by decide)

/-! ## C5: diagnostics when both endpoints fail -/

/-- Whether `needle` starts `hay`. -/
def leadsChars : List Char → List Char → Bool
  | [], _ => true
  | _ :: _, [] => false
  | a :: as, b :: bs => a = b && leadsChars as bs

/-- Whether `needle` occurs anywhere in the character list. -/
def containsChars (needle : List Char) : List Char → Bool
  | [] => leadsChars needle []
  | c :: cs => leadsChars needle (c :: cs) || containsChars needle cs

/-- Substring occurrence test. -/
def strContains (hay needle : String) : Bool :=
  containsChars needle.toList hay.toList

theorem fallbackErrMsg_ne_empty (st : Nat) (stx : String) (eb : Option Json) :
    fallbackErrMsg st stx eb ≠ "" := by
  intro h
  have hlen : (fallbackErrMsg st stx eb).length = 0 := by rw [h]; rfl
  have h26 : ("AI Pipe (fallback) error (" : String).length = 26 := rfl
  simp only [fallbackErrMsg, String.length_append] at hlen
  rw [h26] at hlen
  omega

/-- The primary failure outcome of the C5 counterexample: HTTP 500 with
error body `{error: {message: "boom"}}`. -/
def primC5 : HttpOutcome :=
  .failure 500 "Internal Server Error"
    (some (Json.obj [("error", Json.obj [("message", Json.str "boom")])]))

/-- The fallback failure outcome of the C5 counterexample: HTTP 404 with
error body `{error: {message: "nope"}}`. -/
def fbC5 : HttpOutcome :=
  .failure 404 "Not Found"
    (some (Json.obj [("error", Json.obj [("message", Json.str "nope")])]))

/-- C5 counterexample: with primary HTTP 500 ("boom") and fallback HTTP
404 ("nope"), the raised error is the FALLBACK's message: it mentions
neither the primary's status 500 nor its message, and although 404 is in
the credential/model class, the raised message carries no hint — the
hint exists only on the primary's message, which is discarded. -/
theorem c5_counterexample_primary_diagnostics_lost :
    (callLLM settingsW [] primC5 fbC5).result =
      .error "AI Pipe (fallback) error (404): nope" ∧
    strContains "AI Pipe (fallback) error (404): nope" "500" = false ∧
    strContains "AI Pipe (fallback) error (404): nope" "boom" = false ∧
    strContains "AI Pipe (fallback) error (404): nope" "Tip" = false ∧
    strContains (primaryErrMsg 500 "Internal Server Error"
      (some (Json.obj [("error", Json.obj [("message", Json.str "boom")])])) "m")
      "Tip" = true := by
  decide

/-- C5 (amended): when both endpoints fail, the gateway raises the
FALLBACK failure's status/message (`err2.message || err.message ||
'Network error'`); since a fallback HTTP failure always has a non-empty
message, the raised error does not depend on the primary failure at all
— the primary's status/message, including the credential/model hint that
is attached (unconditionally) to every primary HTTP failure, is
discarded. -/
theorem c5_both_fail_raises_fallback_message (s : LLMSettings)
    (msgs : List Message) (hprov : s.provider = "aipipe") (hkey : s.apiKey ≠ "")
    (primary : HttpOutcome) (hp : ∀ b, primary ≠ .success b)
    (st2 : Nat) (stx2 : String) (eb2 : Option Json) :
    (callLLM s msgs primary (.failure st2 stx2 eb2)).result =
      .error (fallbackErrMsg st2 stx2 eb2) ∧
    ∀ primary2 : HttpOutcome, (∀ b, primary2 ≠ .success b) →
      (callLLM s msgs primary2 (.failure st2 stx2 eb2)).result =
        (callLLM s msgs primary (.failure st2 stx2 eb2)).result := by
  have hp1 : s.provider ≠ "" := by simp [hprov]
  have key : ∀ p : HttpOutcome, (∀ b, p ≠ .success b) →
      (callLLM s msgs p (.failure st2 stx2 eb2)).result =
        .error (fallbackErrMsg st2 stx2 eb2) := by
    intro p hpp
    cases p with
    | success b => exact absurd rfl (hpp b)
    | successBad m =>
        simp [callLLM, hp1, hkey, hprov, runAttempt,
          fallbackErrMsg_ne_empty st2 stx2 eb2]
    | failure st stx eb =>
        simp [callLLM, hp1, hkey, hprov, runAttempt,
          fallbackErrMsg_ne_empty st2 stx2 eb2]
    | netRaise m =>
        simp [callLLM, hp1, hkey, hprov, runAttempt,
          fallbackErrMsg_ne_empty st2 stx2 eb2]
  exact ⟨key primary hp, fun p2 hp2 => by rw [key p2 hp2, key primary hp]⟩

theorem c5_witness :
    (callLLM settingsW [] primC5 (.failure 404 "Not Found"
      (some (Json.obj [("error", Json.obj [("message", Json.str "nope")])])))).result =
      .error (fallbackErrMsg 404 "Not Found"
        (some (Json.obj [("error", Json.obj [("message", Json.str "nope")])]))) ∧
    ∀ primary2 : HttpOutcome, (∀ b, primary2 ≠ .success b) →
      (callLLM settingsW [] primary2 (.failure 404 "Not Found"
        (some (Json.obj [("error", Json.obj [("message", Json.str "nope")])])))).result =
      (callLLM settingsW [] primC5 (.failure 404 "Not Found"
        (some (Json.obj [("error", Json.obj [("message", Json.str "nope")])])))).result :=
  c5_both_fail_raises_fallback_message settingsW [] rfl (by decide) primC5
    (fun b h => by simp only [primC5] at h; exact HttpOutcome.noConfusion h)
    404 "Not Found" (some (Json.obj [("error", Json.obj [("message", Json.str "nope")])]))

/-! ## C7: demo mode without an API key -/

/-- C7: whenever a provider is configured (the source locks it to
`aipipe` everywhere) but no API key is set, `callLLM` returns the canned
demo response without issuing any network request, as a normal result —
and the normalizer turns it into the canned explanatory content
string. -/
theorem c7_demo_mode_no_network (s : LLMSettings) (msgs : List Message)
    (primary fallback : HttpOutcome)
    (hprov : s.provider ≠ "") (hkey : s.apiKey = "") :
    (callLLM s msgs primary fallback).result = .ok demoResponseJson ∧
    (callLLM s msgs primary fallback).fetches = [] ∧
    parseAPIResponse (some demoResponseJson) = .ok ⟨Json.str
      "💡 Demo response: add your AI Pipe token in Settings to query real models.",
      none⟩ := by
  refine ⟨?_, ?_, by rfl⟩ <;> simp [callLLM, hprov, hkey]

/-- Settings with the locked provider, the source's default model, base
URL and empty API key (src/agent.js:86-100); the opaque numeric fields
are irrelevant to the gates. -/
def noKeySettings : LLMSettings :=
  ⟨"aipipe", "", "openai/gpt-4o-mini", Json.num 2000, Json.num 1, "https://aipipe.org"⟩

theorem c7_witness :
    (callLLM noKeySettings [] (.netRaise "offline") (.netRaise "offline")).result =
      .ok demoResponseJson ∧
    (callLLM noKeySettings [] (.netRaise "offline") (.netRaise "offline")).fetches = [] ∧
    parseAPIResponse (some demoResponseJson) = .ok ⟨Json.str
      "💡 Demo response: add your AI Pipe token in Settings to query real models.",
      none⟩ :=
  c7_demo_mode_no_network noKeySettings [] (.netRaise "offline")
    (.netRaise "offline") (by decide) rfl
